import Mathlib

/-!
Verification of the domain-discovery and ethical-crawl subsystem of the
GHL-Mcp-Dashboard repository (`services_serp_client.py`, `services_scraper.py`,
`deps.py`, `config.py`, `models_db.py`), as a shallow embedding in Lean 4.

Times are modelled as natural numbers (seconds); Python dicts keyed by strings
become association lists; async effects become explicit state passing; the
cooperative (asyncio) scheduler becomes an explicit event-ordered small-step
simulation where interleaving matters.
-/

namespace GHL

/-! ### MD5, as used by `hashlib.md5(...).hexdigest()` in `deps.generate_cache_key` -/

/-- Truncate to a 32-bit word, written with an explicit modulus. -/
def u32 (x : Nat) : Nat := x % 4294967296

/-- 32-bit left rotation.  The shifted-out high bits and the shifted-in low
bits occupy disjoint bit positions, so addition coincides with bitwise or. -/
def rotl32 (x n : Nat) : Nat := u32 (x % 2 ^ (32 - n) * 2 ^ n + x / 2 ^ (32 - n))

/-- The 64 MD5 round constants `K[i] = floor(abs(sin(i+1)) * 2^32)` (RFC 1321). -/
def md5K : List Nat :=
  [3614090360, 3905402710, 606105819, 3250441966, 4118548399, 1200080426,
   2821735955, 4249261313, 1770035416, 2336552879, 4294925233, 2304563134,
   1804603682, 4254626195, 2792965006, 1236535329, 4129170786, 3225465664,
   643717713, 3921069994, 3593408605, 38016083, 3634488961, 3889429448,
   568446438, 3275163606, 4107603335, 1163531501, 2850285829, 4243563512,
   1735328473, 2368359562, 4294588738, 2272392833, 1839030562, 4259657740,
   2763975236, 1272893353, 4139469664, 3200236656, 681279174, 3936430074,
   3572445317, 76029189, 3654602809, 3873151461, 530742520, 3299628645,
   4096336452, 1126891415, 2878612391, 4237533241, 1700485571, 2399980690,
   4293915773, 2240044497, 1873313359, 4264355552, 2734768916, 1309151649,
   4149444226, 3174756917, 718787259, 3951481745]

/-- The 64 per-round left-rotation amounts (RFC 1321). -/
def md5S : List Nat :=
  [7, 12, 17, 22, 7, 12, 17, 22, 7, 12, 17, 22, 7, 12, 17, 22,
   5, 9, 14, 20, 5, 9, 14, 20, 5, 9, 14, 20, 5, 9, 14, 20,
   4, 11, 16, 23, 4, 11, 16, 23, 4, 11, 16, 23, 4, 11, 16, 23,
   6, 10, 15, 21, 6, 10, 15, 21, 6, 10, 15, 21, 6, 10, 15, 21]

/-- One MD5 round: mixing function value and message-word index for round `i`.
For a 32-bit word `b`, bitwise complement is `4294967295 - b`. -/
def md5FG (i b c d : Nat) : Nat × Nat :=
  if i < 16 then ((b &&& c) ||| ((4294967295 - b) &&& d), i % 16)
  else if i < 32 then ((d &&& b) ||| ((4294967295 - d) &&& c), (5 * i + 1) % 16)
  else if i < 48 then (b ^^^ c ^^^ d, (3 * i + 5) % 16)
  else (c ^^^ (b ||| (4294967295 - d)), (7 * i) % 16)

/-- One of the 64 MD5 rounds applied to the working state `(a, b, c, d)`. -/
def md5Round (m : List Nat) (st : Nat × Nat × Nat × Nat) (i : Nat) :
    Nat × Nat × Nat × Nat :=
  match st with
  | (a, b, c, d) =>
    let fg := md5FG i b c d
    let f := u32 (fg.1 + a + md5K.getD i 0 + m.getD fg.2 0)
    (d, u32 (b + rotl32 f (md5S.getD i 0)), b, c)

/-- Decode a 64-byte chunk into sixteen little-endian 32-bit words. -/
def md5Words (chunk : List Nat) : List Nat :=
  (List.range 16).map fun j =>
    chunk.getD (4 * j) 0 + chunk.getD (4 * j + 1) 0 * 256 +
      chunk.getD (4 * j + 2) 0 * 65536 + chunk.getD (4 * j + 3) 0 * 16777216

/-- Process one 64-byte chunk into the running digest state. -/
def md5Chunk (h : Nat × Nat × Nat × Nat) (chunk : List Nat) :
    Nat × Nat × Nat × Nat :=
  let m := md5Words chunk
  let r := (List.range 64).foldl (md5Round m) h
  (u32 (h.1 + r.1), u32 (h.2.1 + r.2.1), u32 (h.2.2.1 + r.2.2.1),
   u32 (h.2.2.2 + r.2.2.2))

/-- Split a byte list into 64-byte chunks. -/
def chunks64 : List Nat → List (List Nat)
  | [] => []
  | b :: bs => ((b :: bs).take 64) :: chunks64 ((b :: bs).drop 64)
termination_by l => l.length
decreasing_by simp [List.length_drop]; omega

/-- MD5 padding: append `0x80`, zero bytes to 56 mod 64, then the original
bit length as a little-endian 64-bit quantity. -/
def md5Pad (msg : List Nat) : List Nat :=
  let bitLen := (8 * msg.length) % 2 ^ 64
  let padded := msg ++ [128] ++ List.replicate ((119 - msg.length % 64) % 64) 0
  padded ++ (List.range 8).map fun j => bitLen / 2 ^ (8 * j) % 256

/-- Serialize a 32-bit word as four little-endian bytes. -/
def wordBytes (w : Nat) : List Nat :=
  [w % 256, w / 256 % 256, w / 65536 % 256, w / 16777216 % 256]

/-- MD5 digest of a byte list, as the 16 output bytes. -/
def md5Bytes (msg : List Nat) : List Nat :=
  let h := (chunks64 (md5Pad msg)).foldl md5Chunk
    (1732584193, 4023233417, 2562383102, 271733878)
  wordBytes h.1 ++ wordBytes h.2.1 ++ wordBytes h.2.2.1 ++ wordBytes h.2.2.2

/-- Lower-case hexadecimal digit. -/
def hexDigit (n : Nat) : Char :=
  if n < 10 then Char.ofNat (48 + n) else Char.ofNat (87 + n % 16)

/-- UTF-8 encoding of one character, as Python `str.encode()` produces it. -/
def utf8Char (c : Char) : List Nat :=
  let n := c.toNat
  if n < 128 then [n]
  else if n < 2048 then [192 + n / 64, 128 + n % 64]
  else if n < 65536 then [224 + n / 4096, 128 + n / 64 % 64, 128 + n % 64]
  else [240 + n / 262144, 128 + n / 4096 % 64, 128 + n / 64 % 64, 128 + n % 64]

/-- `hashlib.md5(s.encode()).hexdigest()`. -/
def md5hex (s : String) : String :=
  String.mk ((md5Bytes (s.data.flatMap utf8Char)).flatMap
    fun b => [hexDigit (b / 16), hexDigit (b % 16)])

/-! ### `deps.generate_cache_key` and `config.Settings` -/

/-- `deps.generate_cache_key(prefix, *args)`:
`hashlib.md5((f"{prefix}:" + ":".join(str(arg) for arg in args)).encode()).hexdigest()`. -/
def generate_cache_key (pre : String) (args : List String) : String :=
  md5hex (pre ++ ":" ++ String.intercalate ":" args)

/-- The cache key computed by `SERPClient.get_domain_keywords(domain)`
(`services_serp_client.py` line 34): `generate_cache_key("domain_keywords", domain)`. -/
def domain_keywords_cache_key (domain : String) : String :=
  generate_cache_key "domain_keywords" [domain]

/-- The spec describes `discover(domain, country, language, location)`; the code's
`get_domain_keywords` accepts only `domain`, so in the spec's four-parameter
signature the key computation is this: the last three parameters are not used. -/
def spec_discover_cache_key (domain _country _language _loc : String) : String :=
  domain_keywords_cache_key domain

/-- The attribute names assigned on `self` in `config.Settings.__init__`
(`config.py` lines 26-62), in source order. -/
def settingsAttrNames : List String :=
  ["JWT_SECRET", "WINDOW_DAYS", "MAX_FREE", "REQUESTS_PER_MINUTE",
   "GHL_API_KEY", "GHL_LOCATION_ID",
   "GOOGLE_API_KEY", "GOOGLE_CSE_CX", "GOOGLE_CSE_API_KEY", "PSI_STRATEGY",
   "ALLOWED_ORIGINS", "DATABASE_URL",
   "CACHE_EXPIRY_HOURS", "REPORT_EXPIRY_DAYS",
   "REQUEST_TIMEOUT", "USER_AGENT", "MAX_PAGES_PER_DOMAIN",
   "MAX_KEYWORDS_TO_ANALYZE", "MAX_CLUSTERS", "MIN_CLUSTER_SIZE"]

/-- The `settings.X` attributes read by `services_scraper.py` on its crawl path
(lines 36, 37, 99, 109, 263, 268). -/
def scraperSettingsReads : List String :=
  ["REQUEST_TIMEOUT", "USER_AGENT", "MAX_PAGES_PER_DOMAIN",
   "REQUESTS_PER_SECOND", "MAX_CONCURRENT_REQUESTS"]

/-! ### Response cache and provider chain (`services_serp_client.py`, `models_db.py`) -/

/-- The payload a provider fetch returns (`keywords`, `top_urls`, `provider`);
keyword/url items are abstracted to strings, since only list emptiness and
payload equality matter to the claims. -/
structure Payload where
  keywords : List String
  top_urls : List String
  provider : String
deriving DecidableEq, Repr

/-- A row of the `api_cache` table (`models_db.APICache`): `expires_at` is
filled by the column default `utcnow + CACHE_EXPIRY_HOURS` at insert time. -/
structure APICacheEntry where
  cache_key : String
  provider : String
  response_data : Payload
  created_at : Nat
  expires_at : Nat
deriving DecidableEq, Repr

/-- `SERPClient._get_cached_response`: SELECT `response_data` WHERE
`cache_key = :key AND expires_at > :now`, `fetchone()`; `None` when no row
matches (and on any exception). -/
def get_cached_response (cache : List APICacheEntry) (key : String) (now : Nat) :
    Option Payload :=
  (cache.find? fun e => decide (e.cache_key = key) && decide (now < e.expires_at)).map
    (·.response_data)

/-- `SERPClient._cache_response`: inserts a new `APICache` row; `cache_key` has a
unique constraint, so an insert for an existing key raises, is caught, and
leaves the table unchanged. -/
def cache_response (cache : List APICacheEntry) (key provName : String)
    (payload : Payload) (now ttl : Nat) : List APICacheEntry :=
  if cache.any fun e => decide (e.cache_key = key) then cache
  else cache ++ [⟨key, provName, payload, now, now + ttl⟩]

/-- What one provider's fetch does when called: raise, or return a payload. -/
inductive ProviderOutcome
  | throws (msg : String)
  | returns (data : Payload)
deriving DecidableEq, Repr

/-- How many providers of a configured chain would raise when called. -/
def countThrows : List (String × ProviderOutcome) → Nat
  | [] => 0
  | (_, .throws _) :: rest => countThrows rest + 1
  | (_, .returns _) :: rest => countThrows rest

/-- The provider loop of `get_domain_keywords` (lines 43-63): try each provider
in order; on exception continue; accept the first payload whose `keywords`
list is non-empty, writing it through to the cache; if the loop ends, raise
`Exception("All SERP providers failed or returned no data")`.  Returns the
result, the new cache state, and the number of provider calls issued. -/
def run_providers (cache : List APICacheEntry) (key : String) (now ttl : Nat) :
    List (String × ProviderOutcome) → Except String Payload × List APICacheEntry × Nat
  | [] => (.error "All SERP providers failed or returned no data", cache, 0)
  | (provName, o) :: rest =>
    match o with
    | .throws _ =>
      let r := run_providers cache key now ttl rest
      (r.1, r.2.1, r.2.2 + 1)
    | .returns d =>
      if d.keywords ≠ [] then (.ok d, cache_response cache key provName d now ttl, 1)
      else
        let r := run_providers cache key now ttl rest
        (r.1, r.2.1, r.2.2 + 1)

/-- `SERPClient.get_domain_keywords(domain)` (lines 32-63): build the cache key,
return a non-expired cached payload verbatim if present (zero provider calls),
otherwise run the provider chain. -/
def get_domain_keywords (cache : List APICacheEntry) (now ttl : Nat) (domain : String)
    (providers : List (String × ProviderOutcome)) :
    Except String Payload × List APICacheEntry × Nat :=
  let key := domain_keywords_cache_key domain
  match get_cached_response cache key now with
  | some d => (.ok d, cache, 0)
  | none => run_providers cache key now ttl providers

/-! ### `urllib.robotparser.RobotFileParser`, as used by `services_scraper.py`

CPython semantics of the parser object the scraper stores in `robots_cache`:
a freshly constructed parser has `disallow_all = allow_all = False` and
`last_checked = 0`, and `can_fetch` returns `False` until the file has been
read (`if not self.last_checked: return False`).  URL normalization
(percent-quoting) is elided: rule paths and checked URLs are compared as the
path strings themselves. -/

/-- The characters before the first `/` — Python `useragent.split("/")[0]`. -/
def productTokenChars : List Char → List Char
  | [] => []
  | c :: cs => if c = '/' then [] else c :: productTokenChars cs

/-- Python `str.lower()`, character-wise. -/
def lowerChars (cs : List Char) : List Char := cs.map Char.toLower

/-- Python `needle in hay` substring containment on character lists. -/
def charsInfixOf : List Char → List Char → Bool
  | needle, [] => needle.isEmpty
  | needle, c :: cs => needle.isPrefixOf (c :: cs) || charsInfixOf needle cs

/-- One `Allow`/`Disallow` rule line: `applies_to` is
`self.path == "*" or filename.startswith(self.path)`. -/
structure RuleLine where
  path : String
  allowance : Bool
deriving DecidableEq, Repr

/-- A `User-agent` block of a parsed robots.txt. -/
structure RobotsEntry where
  useragents : List String
  rulelines : List RuleLine
deriving DecidableEq, Repr

/-- `Entry.applies_to`: lower-case the product token (the part of the user
agent before `/`) and match it against each listed agent (`*` matches all,
otherwise substring containment). -/
def entryAppliesTo (e : RobotsEntry) (useragent : String) : Bool :=
  let token := lowerChars (productTokenChars useragent.data)
  e.useragents.any fun agent =>
    decide (agent = "*") || charsInfixOf (lowerChars agent.data) token

/-- `Entry.allowance`: the first applicable rule line decides; default allow. -/
def entryAllowance (e : RobotsEntry) (url : String) : Bool :=
  match e.rulelines.find? fun l => decide (l.path = "*") || l.path.data.isPrefixOf url.data with
  | some l => l.allowance
  | none => true

/-- The `RobotFileParser` state. A fresh parser (the object built on the
robots.txt failure path of `WebScraper._get_robots_txt`, lines 88-91) is the
default value of every field. -/
structure RobotFileParser where
  entries : List RobotsEntry := []
  default_entry : Option RobotsEntry := none
  disallow_all : Bool := false
  allow_all : Bool := false
  last_checked : Nat := 0
deriving DecidableEq, Repr

/-- `RobotFileParser.can_fetch(useragent, url)` (CPython): deny-all and
allow-all flags first; then, if the file was never read (`last_checked` still
0), return `False`; otherwise the first entry applying to the user agent (or
the default entry) decides, defaulting to allow. -/
def RobotFileParser.can_fetch (rp : RobotFileParser) (useragent url : String) : Bool :=
  if rp.disallow_all then false
  else if rp.allow_all then true
  else if rp.last_checked = 0 then false
  else
    match rp.entries.find? (entryAppliesTo · useragent) with
    | some e => entryAllowance e url
    | none =>
      match rp.default_entry with
      | some e => entryAllowance e url
      | none => true

/-! ### `services_scraper.WebScraper` -/

/-- The `ScrapedPage` dataclass (`services_scraper.py` lines 14-23). -/
structure ScrapedPage where
  url : String
  title : String
  meta_description : String
  content : String
  keywords : List String
  status_code : Nat
  error : Option String := none
deriving DecidableEq, Repr

/-- The mutable per-scraper dictionaries (`robots_cache`, `domain_delays`,
`last_request_time`), as association lists. -/
structure ScraperState where
  robots_cache : List (String × RobotFileParser) := []
  domain_delays : List (String × Nat) := []
  last_request_time : List (String × Nat) := []
deriving Repr

/-- `WebScraper._get_robots_txt(domain)` when the robots.txt GET fails
(network error, timeout, or non-200 status — the code only builds a parsed
object on status 200): a fresh permissively-intended `RobotFileParser()` is
created, cached under the domain, and returned; `domain_delays` is untouched.
Cached parsers are returned as-is on later calls (lines 47-48). -/
def get_robots_txt_on_failure (st : ScraperState) (domain : String) :
    RobotFileParser × ScraperState :=
  match (st.robots_cache.find? fun p => decide (p.1 = domain)).map (·.2) with
  | some rp => (rp, st)
  | none =>
    let rp : RobotFileParser := {}
    (rp, { st with robots_cache := st.robots_cache ++ [(domain, rp)] })

/-- `WebScraper._can_fetch(domain, url, robots_parser)` (lines 93-102): a
missing parser allows; otherwise delegate to `RobotFileParser.can_fetch`
with the configured user agent (the delegate call does not raise). -/
def can_fetch_opt (rp? : Option RobotFileParser) (useragent url : String) : Bool :=
  match rp? with
  | none => true
  | some rp => rp.can_fetch useragent url

/-- What `_extract_content` produced from a 200-status body. -/
structure Extracted where
  title : String
  meta_description : String
  content : String
  keywords : List String
  headings : List String
deriving DecidableEq, Repr

/-- The outcome of the HTTP GET a page fetch would issue: an exception, or a
response with a status and (for 200) extractable HTML. -/
inductive FetchResult
  | exc (msg : String)
  | resp (status : Nat) (ext : Extracted)
deriving DecidableEq, Repr

/-- The page returned on the robots-blocked path of `scrape_url`
(lines 199-207): note `status_code=403` and `error="Blocked by robots.txt"`. -/
def blockedPage (url : String) : ScrapedPage :=
  { url := url, title := "", meta_description := "", content := "", keywords := [],
    status_code := 403, error := some "Blocked by robots.txt" }

/-- `WebScraper.scrape_url(url)` (lines 191-250), given the robots parser the
domain resolves to and the GET outcome; the second component counts HTTP GETs
issued to `url`.  Disallowed URLs return the blocked page before any GET; a
200 response yields the extracted fields with
`keywords = extracted keywords + headings`; other statuses yield an
`HTTP {status}` error; a raised exception is caught into a `status_code=0`
page. -/
def scrape_url (rp? : Option RobotFileParser) (useragent url : String)
    (fr : FetchResult) : ScrapedPage × Nat :=
  if ¬ can_fetch_opt rp? useragent url then (blockedPage url, 0)
  else
    match fr with
    | .exc m =>
      ({ url := url, title := "", meta_description := "", content := "",
         keywords := [], status_code := 0, error := some m }, 1)
    | .resp status ext =>
      if status = 200 then
        ({ url := url, title := ext.title, meta_description := ext.meta_description,
           content := ext.content, keywords := ext.keywords ++ ext.headings,
           status_code := 200, error := none }, 1)
      else
        ({ url := url, title := "", meta_description := "", content := "",
           keywords := [], status_code := status,
           error := some ("HTTP " ++ toString status) }, 1)

/-! ### `WebScraper._respect_rate_limit` (lines 104-117)

Atomic view first: one uninterrupted run of the method computes the time at
which the caller's turn is granted, which is also the value recorded into
`last_request_time[domain]` (the method re-reads `time.time()` after the
sleep). -/

/-- Grant time of one `_respect_rate_limit` run entered at `now` with recorded
last-request time `last` and effective delay `delay`: sleep
`delay - (now - last)` when the elapsed time is short, else proceed at once. -/
def respect_rate_limit (last : Option Nat) (now delay : Nat) : Nat :=
  match last with
  | some l => if now - l < delay then now + (delay - (now - l)) else now
  | none => now

/-! Interleaved view: under asyncio, the method body runs atomically except
across the `await asyncio.sleep`, so a task that sleeps re-records
`last_request_time` only on waking, and tasks arriving meanwhile read the
stale value.  The simulation processes, at each step, the earliest pending
event (task arrival or sleep expiry; ties resolved in task order). -/

/-- A rate-limited task: not yet entered the limiter (`arrived`), suspended in
`asyncio.sleep` (`sleeping` until its wake time), or granted (`done` holds the
time its page fetch starts). -/
inductive TaskPhase
  | arrived (t : Nat)
  | sleeping (w : Nat)
  | done (f : Nat)
deriving DecidableEq, Repr

/-- State of the limiter for one domain plus its client tasks. -/
structure LimiterState where
  last : Option Nat := none
  tasks : List TaskPhase
deriving DecidableEq, Repr

/-- Time of a task's next scheduler event, if it still has one. -/
def phaseTime : TaskPhase → Option Nat
  | .arrived t => some t
  | .sleeping w => some w
  | .done _ => none

/-- Index and time of the earliest pending event (first in task order among
equal times). -/
def nextEvent (tasks : List TaskPhase) : Option (Nat × Nat) :=
  (tasks.enum.foldl (fun best p =>
    match phaseTime p.2 with
    | none => best
    | some t =>
      match best with
      | none => some (p.1, t)
      | some (_, bt) => if t < bt then some (p.1, t) else best) none)

/-- One scheduler step: run the earliest event.  An arriving task executes
lines 106-117 up to the sleep: with a stale recorded time it suspends until
`last + delay` (computed once, never re-checked); otherwise it records its own
entry time and is granted.  A waking task records its wake time and is
granted. -/
def limiterStep (delay : Nat) (s : LimiterState) : Option LimiterState :=
  match nextEvent s.tasks with
  | none => none
  | some (i, _) =>
    match s.tasks.get? i with
    | some (.arrived t) =>
      (match s.last with
       | some l =>
         if t - l < delay then
           some { s with tasks := s.tasks.set i (.sleeping (t + (delay - (t - l)))) }
         else some { last := some t, tasks := s.tasks.set i (.done t) }
       | none => some { last := some t, tasks := s.tasks.set i (.done t) })
    | some (.sleeping w) => some { last := some w, tasks := s.tasks.set i (.done w) }
    | _ => none

/-- Run the scheduler for at most `fuel` steps (each task needs at most two). -/
def runLimiter (delay : Nat) : Nat → LimiterState → LimiterState
  | 0, s => s
  | fuel + 1, s =>
    match limiterStep delay s with
    | none => s
    | some s' => runLimiter delay fuel s'

/-- The fetch start times of the granted tasks, in task order. -/
def fetchTimes (s : LimiterState) : List Nat :=
  s.tasks.filterMap fun p =>
    match p with
    | .done f => some f
    | _ => none

/-! ### `WebScraper._scrape_pages_internal` (lines 260-316) -/

/-- A `successful_pages` element (lines 292-297). -/
structure SuccessEntry where
  url : String
  title : String
  meta_description : String
  content_length : Nat
deriving DecidableEq, Repr

/-- A `failed_pages` element (lines 286-289 and 301-304). -/
structure FailedEntry where
  url : String
  error : String
deriving DecidableEq, Repr

/-- An element of the `asyncio.gather(*tasks, return_exceptions=True)` result:
either a raised exception captured in place, or the `ScrapedPage` the task
returned.  (`urls[i]` is paired with result `i`, as the loop reads it.) -/
inductive GatherResult
  | exc (msg : String)
  | page (p : ScrapedPage)
deriving DecidableEq, Repr

/-- The result-processing loop (lines 284-304): exceptions go to
`failed_pages`; pages with status 200 and non-empty content go to
`successful_pages` (recording their content and keywords); every other page
goes to `failed_pages` with its error or `Status {code}`. -/
def partition_pages :
    List (String × GatherResult) →
      List SuccessEntry × List FailedEntry × List String × List String
  | [] => ([], [], [], [])
  | (u, r) :: rest =>
    let prev := partition_pages rest
    match r with
    | .exc m => (prev.1, ⟨u, m⟩ :: prev.2.1, prev.2.2.1, prev.2.2.2)
    | .page p =>
      if p.status_code = 200 ∧ p.content ≠ "" then
        (⟨p.url, p.title, p.meta_description, p.content.length⟩ :: prev.1, prev.2.1,
         p.content :: prev.2.2.1, p.keywords ++ prev.2.2.2)
      else
        (prev.1, ⟨p.url, p.error.getD ("Status " ++ toString p.status_code)⟩ :: prev.2.1,
         prev.2.2.1, prev.2.2.2)

/-- The dictionary `_scrape_pages_internal` returns.  `extracted_keywords` is
`list(all_keywords)` of a Python set, modelled as the deduplicated keyword
list (set iteration order is unspecified). -/
structure CrawlSummary where
  domain : String
  successful_pages : List SuccessEntry
  failed_pages : List FailedEntry
  content : String
  extracted_keywords : List String
  total_pages_scraped : Nat
  total_content_length : Nat
deriving DecidableEq, Repr

/-- `WebScraper._scrape_pages_internal(domain, urls)`: truncate `urls` to
`settings.MAX_PAGES_PER_DOMAIN`, fetch them all (one gather result per
attempted URL, supplied here as `results`), and aggregate the partition. -/
def scrape_pages_internal (maxPagesPerDomain : Nat) (domain : String)
    (urls : List String) (results : List GatherResult) : CrawlSummary :=
  let attempted := urls.take maxPagesPerDomain
  let parts := partition_pages (attempted.zip results)
  { domain := domain
    successful_pages := parts.1
    failed_pages := parts.2.1
    content := String.intercalate " " parts.2.2.1
    extracted_keywords := parts.2.2.2.dedup
    total_pages_scraped := parts.1.length
    total_content_length := (parts.2.2.1.map String.length).sum }

/-! ### The concurrency structure of the fetch semaphore

`_scrape_pages_internal` executes `semaphore = asyncio.Semaphore(
settings.MAX_CONCURRENT_REQUESTS)` on every call (line 268): each orchestrator
invocation owns a fresh semaphore, and its tasks acquire permits only from
that one.  The model: a process state is the list of live invocations, each
with its private permit count, its not-yet-started tasks, and its in-flight
fetches; a task may start only by taking a permit from its own invocation's
semaphore. -/

/-- One live `_scrape_pages_internal` invocation. -/
structure CrawlInvocation where
  permits : Nat
  pending : Nat
  inFlight : Nat
deriving DecidableEq, Repr

/-- A fresh invocation: a new semaphore with `cap` permits and `n` URLs. -/
def initInvocation (cap n : Nat) : CrawlInvocation :=
  { permits := cap, pending := n, inFlight := 0 }

/-- Scheduler events: invocation `i` starts one of its fetch tasks (acquiring
a permit from its own semaphore), or one of its in-flight fetches completes
(releasing the permit). -/
inductive CrawlStep
  | start (i : Nat)
  | finish (i : Nat)
deriving DecidableEq, Repr

/-- Apply one event; `none` when the event is not enabled. -/
def applyCrawlStep (invs : List CrawlInvocation) : CrawlStep → Option (List CrawlInvocation)
  | .start i =>
    match invs.get? i with
    | some inv =>
      if 0 < inv.pending ∧ 0 < inv.permits then
        some (invs.set i
          { permits := inv.permits - 1, pending := inv.pending - 1,
            inFlight := inv.inFlight + 1 })
      else none
    | none => none
  | .finish i =>
    match invs.get? i with
    | some inv =>
      if 0 < inv.inFlight then
        some (invs.set i
          { permits := inv.permits + 1, pending := inv.pending,
            inFlight := inv.inFlight - 1 })
      else none
    | none => none

/-- Run a sequence of scheduler events. -/
def runCrawlSteps (invs : List CrawlInvocation) : List CrawlStep → Option (List CrawlInvocation)
  | [] => some invs
  | st :: rest => (applyCrawlStep invs st).bind (runCrawlSteps · rest)

/-- Total page fetches in flight across the whole process. -/
def totalInFlight (invs : List CrawlInvocation) : Nat :=
  (invs.map (·.inFlight)).sum

/-! ## Helper lemmas -/

/-- Each gather result lands in exactly one of the two partitions, so the
partition sizes sum to the number of processed results. -/
theorem partition_pages_length (l : List (String × GatherResult)) :
    (partition_pages l).1.length + (partition_pages l).2.1.length = l.length := by
  induction l with
  | nil => rfl
  | cons hd tl ih =>
    obtain ⟨u, r⟩ := hd
    cases r with
    | exc m =>
      simp only [partition_pages, List.length_cons]
      omega
    | page p =>
      by_cases hc : p.status_code = 200 ∧ p.content ≠ ""
      · simp only [partition_pages]
        rw [if_pos hc]
        simp only [List.length_cons]
        omega
      · simp only [partition_pages]
        rw [if_neg hc]
        simp only [List.length_cons]
        omega

/-- The provider loop raises its terminal exception exactly when no provider
returns a payload with a non-empty keyword list (throwing providers are
skipped, empty payloads are rejected). -/
theorem run_providers_error_iff (cache : List APICacheEntry) (key : String)
    (now ttl : Nat) (ps : List (String × ProviderOutcome)) :
    (run_providers cache key now ttl ps).1 =
        Except.error "All SERP providers failed or returned no data" ↔
      ∀ po ∈ ps, ∀ d, po.2 = ProviderOutcome.returns d → d.keywords = [] := by
  induction ps with
  | nil => simp [run_providers]
  | cons hd tl ih =>
    obtain ⟨nm, o⟩ := hd
    cases o with
    | throws m =>
      simp only [run_providers, List.mem_cons]
      rw [ih]
      constructor
      · rintro h po (rfl | hm)
        · intro d hd; cases hd
        · exact h po hm
      · intro h po hm
        exact h po (Or.inr hm)
    | returns d =>
      by_cases hk : d.keywords = []
      · simp only [run_providers, hk, ne_eq, not_true_eq_false, if_false,
          List.mem_cons]
        rw [ih]
        constructor
        · rintro h po (rfl | hm)
          · intro d' hd'; cases hd'; exact hk
          · exact h po hm
        · intro h po hm
          exact h po (Or.inr hm)
      · refine iff_of_false ?_ ?_
        · simp [run_providers, hk]
        · intro h
          exact hk (h (nm, ProviderOutcome.returns d) (List.mem_cons_self _ _) d rfl)

/-- A successful provider loop started from an empty cache leaves exactly the
one freshly written entry: the accepted payload under the given key, created
now and expiring `now + ttl`. -/
theorem run_providers_ok_cache (key : String) (now ttl : Nat)
    (ps : List (String × ProviderOutcome)) (p : Payload)
    (h : (run_providers [] key now ttl ps).1 = Except.ok p) :
    ∃ nm, (run_providers [] key now ttl ps).2.1 =
      [⟨key, nm, p, now, now + ttl⟩] := by
  induction ps with
  | nil => simp [run_providers] at h
  | cons hd tl ih =>
    obtain ⟨nm, o⟩ := hd
    cases o with
    | throws m =>
      simp only [run_providers] at h ⊢
      exact ih h
    | returns d =>
      by_cases hk : d.keywords = []
      · simp only [run_providers, hk, ne_eq, not_true_eq_false, if_false] at h ⊢
        exact ih h
      · simp only [run_providers, hk, ne_eq, not_false_eq_true, if_true,
          Except.ok.injEq] at h ⊢
        subst h
        exact ⟨nm, by simp [cache_response]⟩

/-- A single-entry cache hit: the key matches and the entry is unexpired. -/
theorem get_cached_response_hit (key nm : String) (p : Payload) (c e now : Nat)
    (h : now < e) :
    get_cached_response [⟨key, nm, p, c, e⟩] key now = some p := by
  simp [get_cached_response, List.find?, h]

/-- One semaphore event preserves, for every invocation, the accounting
identity `available permits + in-flight fetches = capacity`. -/
theorem applyCrawlStep_invariant (cap : Nat) (invs invs' : List CrawlInvocation)
    (st : CrawlStep) (hstep : applyCrawlStep invs st = some invs')
    (hinv : ∀ inv ∈ invs, inv.permits + inv.inFlight = cap) :
    ∀ inv ∈ invs', inv.permits + inv.inFlight = cap := by
  cases st with
  | start i =>
    simp only [applyCrawlStep] at hstep
    cases hg : invs.get? i with
    | none => simp only [hg] at hstep; exact Option.noConfusion hstep
    | some inv0 =>
      simp only [hg] at hstep
      by_cases hcond : 0 < inv0.pending ∧ 0 < inv0.permits
      · rw [if_pos hcond] at hstep
        injection hstep with hstep
        subst hstep
        intro inv hmem
        rcases List.mem_or_eq_of_mem_set hmem with hm | hm
        · exact hinv inv hm
        · have h0 := hinv inv0 (List.get?_mem hg)
          subst hm
          dsimp only
          omega
      · rw [if_neg hcond] at hstep
        cases hstep
  | finish i =>
    simp only [applyCrawlStep] at hstep
    cases hg : invs.get? i with
    | none => simp only [hg] at hstep; exact Option.noConfusion hstep
    | some inv0 =>
      simp only [hg] at hstep
      by_cases hcond : 0 < inv0.inFlight
      · rw [if_pos hcond] at hstep
        injection hstep with hstep
        subst hstep
        intro inv hmem
        rcases List.mem_or_eq_of_mem_set hmem with hm | hm
        · exact hinv inv hm
        · have h0 := hinv inv0 (List.get?_mem hg)
          subst hm
          dsimp only
          omega
      · rw [if_neg hcond] at hstep
        cases hstep

/-- The accounting identity is an invariant of every event sequence. -/
theorem runCrawlSteps_invariant (cap : Nat) (steps : List CrawlStep) :
    ∀ invs invs', runCrawlSteps invs steps = some invs' →
      (∀ inv ∈ invs, inv.permits + inv.inFlight = cap) →
      ∀ inv ∈ invs', inv.permits + inv.inFlight = cap := by
  induction steps with
  | nil =>
    intro invs invs' h hinv
    simp only [runCrawlSteps, Option.some.injEq] at h
    subst h
    exact hinv
  | cons st rest ih =>
    intro invs invs' h hinv
    simp only [runCrawlSteps] at h
    cases hap : applyCrawlStep invs st with
    | none => rw [hap] at h; cases h
    | some mid =>
      rw [hap] at h
      simp only [Option.some_bind] at h
      exact ih mid invs' h (applyCrawlStep_invariant cap invs mid st hap hinv)

/-! ## Claims -/

/-- Claim C1, counterexample: the semaphore is created anew inside every
`_scrape_pages_internal` call, so with capacity 2 two concurrent orchestrator
invocations (two tasks each) reach 4 total in-flight page fetches — the
process-wide bound the claim states is exceeded at this schedule. -/
theorem c1_global_bound_counterexample :
    (runCrawlSteps [initInvocation 2 2, initInvocation 2 2]
        [CrawlStep.start 0, CrawlStep.start 0, CrawlStep.start 1,
         CrawlStep.start 1]).map totalInFlight = some 4 ∧ 2 < 4 := by
  constructor
  · rfl
  · decide

/-- Claim C1, amended: the capacity bound holds per orchestrator invocation,
not process-wide — in every state reachable from any number of fresh
invocations, each invocation's in-flight fetch count is at most the
semaphore capacity it was created with. -/
theorem c1_fetch_bound_per_invocation (cap : Nat) (ns : List Nat)
    (steps : List CrawlStep) (invs' : List CrawlInvocation)
    (h : runCrawlSteps (ns.map (initInvocation cap)) steps = some invs') :
    ∀ inv ∈ invs', inv.inFlight ≤ cap := by
  have hinv : ∀ inv ∈ ns.map (initInvocation cap),
      inv.permits + inv.inFlight = cap := by
    intro inv hm
    rw [List.mem_map] at hm
    obtain ⟨n, _, rfl⟩ := hm
    simp [initInvocation]
  intro inv hm
  have := runCrawlSteps_invariant cap steps _ _ h hinv inv hm
  omega

/-- Witness for `c1_fetch_bound_per_invocation` at a concrete schedule. -/
theorem c1_fetch_bound_per_invocation_witness :
    runCrawlSteps ([2, 2].map (initInvocation 2)) [CrawlStep.start 0] =
        some [⟨1, 1, 1⟩, ⟨2, 2, 0⟩] ∧
      ∀ inv ∈ [(⟨1, 1, 1⟩ : CrawlInvocation), ⟨2, 2, 0⟩], inv.inFlight ≤ 2 :=
  ⟨by decide, c1_fetch_bound_per_invocation 2 [2, 2] [CrawlStep.start 0] _ (by decide)⟩

/-- Claim C2 (code bug): when the robots.txt fetch fails, `_get_robots_txt`
caches a freshly constructed `RobotFileParser` intending it to be permissive,
but an unread parser's `can_fetch` returns `False` for every URL
(`last_checked` is still 0) — so the resulting policy blocks everything and
the subsequent page fetch is answered with the robots-blocked page and zero
HTTP GETs, never proceeding over the network.  The crawl-delay map is indeed
left untouched. -/
theorem c2_robots_failure_fails_closed (st : ScraperState)
    (domain ua url : String) (fr : FetchResult)
    (h : st.robots_cache.find? (fun p => decide (p.1 = domain)) = none) :
    ((get_robots_txt_on_failure st domain).1.can_fetch ua url = false ∧
        (get_robots_txt_on_failure st domain).2.domain_delays = st.domain_delays) ∧
      scrape_url (some (get_robots_txt_on_failure st domain).1) ua url fr =
        (blockedPage url, 0) := by
  have hrp : get_robots_txt_on_failure st domain =
      (({} : RobotFileParser),
        { st with robots_cache := st.robots_cache ++ [(domain, {})] }) := by
    simp [get_robots_txt_on_failure, h]
  rw [hrp]
  have hcf : (({} : RobotFileParser)).can_fetch ua url = false := rfl
  refine ⟨⟨hcf, rfl⟩, ?_⟩
  simp [scrape_url, can_fetch_opt, hcf]

/-- Witness for `c2_robots_failure_fails_closed` on a fresh scraper state. -/
theorem c2_robots_failure_fails_closed_witness :
    (({} : ScraperState)).robots_cache.find?
        (fun p => decide (p.1 = "example.com")) = none ∧
      (((get_robots_txt_on_failure {} "example.com").1.can_fetch
            "AI2Flows-CompetitiveAnalyzer/1.0" "https://example.com/page" = false ∧
          (get_robots_txt_on_failure {} "example.com").2.domain_delays =
            (({} : ScraperState)).domain_delays) ∧
        scrape_url (some (get_robots_txt_on_failure {} "example.com").1)
            "AI2Flows-CompetitiveAnalyzer/1.0" "https://example.com/page"
            (FetchResult.exc "connection refused") =
          (blockedPage "https://example.com/page", 0)) :=
  ⟨rfl, c2_robots_failure_fails_closed {} "example.com"
    "AI2Flows-CompetitiveAnalyzer/1.0" "https://example.com/page"
    (FetchResult.exc "connection refused") rfl⟩

/-- Claim C3 (code bug): the crawl path reads `settings.REQUESTS_PER_SECOND`
(rate-limiter default delay, line 109) and `settings.MAX_CONCURRENT_REQUESTS`
(semaphore capacity, line 268), but `config.Settings.__init__` defines
neither attribute — both reads raise `AttributeError` at runtime. -/
theorem c3_crawl_settings_unresolved :
    ("REQUESTS_PER_SECOND" ∈ scraperSettingsReads ∧
        "REQUESTS_PER_SECOND" ∉ settingsAttrNames) ∧
      ("MAX_CONCURRENT_REQUESTS" ∈ scraperSettingsReads ∧
        "MAX_CONCURRENT_REQUESTS" ∉ settingsAttrNames) := by
  decide

/-- Claim C4, counterexample: a single configured provider that returns an
empty keyword list without throwing still makes `get_domain_keywords` raise
the terminal exception, although no provider threw — the claim's
empty-success behaviour does not occur. -/
theorem c4_all_empty_raises_counterexample :
    (get_domain_keywords [] 0 24 "example.com"
          [("mock", ProviderOutcome.returns ⟨[], [], "mock"⟩)]).1 =
        Except.error "All SERP providers failed or returned no data" ∧
      countThrows [("mock", ProviderOutcome.returns (⟨[], [], "mock"⟩ : Payload))] = 0 :=
  ⟨rfl, rfl⟩

/-- Claim C4, amended: on a cache miss, `get_domain_keywords` raises its
terminal error if and only if no tried provider returns a payload with a
non-empty keyword list — providers that throw and providers that return
empty results are treated alike, so an all-empty no-throw outcome raises
rather than returning the empty result. -/
theorem c4_error_iff_no_provider_yields (cache : List APICacheEntry)
    (now ttl : Nat) (domain : String)
    (providers : List (String × ProviderOutcome))
    (hmiss : get_cached_response cache (domain_keywords_cache_key domain) now = none) :
    ((get_domain_keywords cache now ttl domain providers).1 =
        Except.error "All SERP providers failed or returned no data") ↔
      ∀ po ∈ providers, ∀ d, po.2 = ProviderOutcome.returns d →
        d.keywords = [] := by
  simp only [get_domain_keywords, hmiss]
  exact run_providers_error_iff cache _ now ttl providers

/-- Witness for `c4_error_iff_no_provider_yields` at a concrete chain. -/
theorem c4_error_iff_no_provider_yields_witness :
    get_cached_response [] (domain_keywords_cache_key "example.com") 0 = none ∧
      (((get_domain_keywords [] 0 24 "example.com"
            [("mock", ProviderOutcome.returns ⟨["kw"], [], "mock"⟩)]).1 =
          Except.error "All SERP providers failed or returned no data") ↔
        ∀ po ∈ [("mock", ProviderOutcome.returns (⟨["kw"], [], "mock"⟩ : Payload))],
          ∀ d, po.2 = ProviderOutcome.returns d → d.keywords = []) :=
  ⟨rfl, c4_error_iff_no_provider_yields [] 0 24 "example.com"
    [("mock", ProviderOutcome.returns ⟨["kw"], [], "mock"⟩)] rfl⟩

/-- Claim C5, counterexample: for a URL its domain's robots.txt disallows,
`scrape_url` returns `status_code = 403` (with error `Blocked by
robots.txt`), not the claimed `status = 0`; it does issue zero HTTP GETs. -/
theorem c5_blocked_status_counterexample :
    (scrape_url (some { entries := [⟨["*"], [⟨"/", false⟩]⟩], last_checked := 1 })
          "AI2Flows-CompetitiveAnalyzer/1.0" "/private"
          (FetchResult.resp 200 ⟨"t", "d", "body", ["k"], ["h"]⟩)).1.status_code = 403 ∧
      ¬ (403 = 0) ∧
      (scrape_url (some { entries := [⟨["*"], [⟨"/", false⟩]⟩], last_checked := 1 })
          "AI2Flows-CompetitiveAnalyzer/1.0" "/private"
          (FetchResult.resp 200 ⟨"t", "d", "body", ["k"], ["h"]⟩)).1.error =
        some "Blocked by robots.txt" ∧
      (scrape_url (some { entries := [⟨["*"], [⟨"/", false⟩]⟩], last_checked := 1 })
          "AI2Flows-CompetitiveAnalyzer/1.0" "/private"
          (FetchResult.resp 200 ⟨"t", "d", "body", ["k"], ["h"]⟩)).2 = 0 := by
  refine ⟨rfl, by decide, rfl, rfl⟩

/-- Claim C5, amended: for every URL the robots policy disallows,
`scrape_url` returns the blocked page — `status_code = 403`, error
`Blocked by robots.txt` — and issues zero HTTP GETs to that URL. -/
theorem c5_blocked_returns_403 (rp? : Option RobotFileParser)
    (ua url : String) (fr : FetchResult)
    (h : can_fetch_opt rp? ua url = false) :
    scrape_url rp? ua url fr = (blockedPage url, 0) := by
  simp [scrape_url, h]

/-- Witness for `c5_blocked_returns_403` at a concrete disallowing policy. -/
theorem c5_blocked_returns_403_witness :
    can_fetch_opt (some { entries := [⟨["*"], [⟨"/", false⟩]⟩], last_checked := 1 })
        "AI2Flows-CompetitiveAnalyzer/1.0" "/secret" = false ∧
      scrape_url (some { entries := [⟨["*"], [⟨"/", false⟩]⟩], last_checked := 1 })
          "AI2Flows-CompetitiveAnalyzer/1.0" "/secret" (FetchResult.exc "never sent") =
        (blockedPage "/secret", 0) :=
  ⟨rfl, c5_blocked_returns_403 _ "AI2Flows-CompetitiveAnalyzer/1.0" "/secret"
    (FetchResult.exc "never sent") rfl⟩

/-- Claim C6 (confirmed): `_scrape_pages_internal` attempts exactly the first
`min(len(urls), MAX_PAGES_PER_DOMAIN)` URLs, and every attempted URL lands in
exactly one of `successful_pages`/`failed_pages`, so the partition sizes sum
to that minimum whatever mix of exceptions, failed pages and successes the
gather returns — an individual failure never aborts the batch. -/
theorem c6_crawl_partition_count (maxPages : Nat) (domain : String)
    (urls : List String) (results : List GatherResult)
    (h : results.length = (urls.take maxPages).length) :
    (scrape_pages_internal maxPages domain urls results).successful_pages.length +
        (scrape_pages_internal maxPages domain urls results).failed_pages.length =
      min urls.length maxPages := by
  simp only [scrape_pages_internal]
  rw [partition_pages_length, List.length_zip, h, List.length_take]
  omega

/-- Witness for `c6_crawl_partition_count`: five candidate URLs, cap 3, one
exception, one robots-blocked page, one success. -/
theorem c6_crawl_partition_count_witness :
    ([GatherResult.exc "boom",
        GatherResult.page (blockedPage "https://d/2"),
        GatherResult.page ⟨"https://d/3", "t", "m", "body", [], 200, none⟩] :
          List GatherResult).length =
        ((["https://d/1", "https://d/2", "https://d/3", "https://d/4",
           "https://d/5"].take 3)).length ∧
      (scrape_pages_internal 3 "d"
            ["https://d/1", "https://d/2", "https://d/3", "https://d/4", "https://d/5"]
            [GatherResult.exc "boom",
             GatherResult.page (blockedPage "https://d/2"),
             GatherResult.page ⟨"https://d/3", "t", "m", "body", [], 200, none⟩]).successful_pages.length +
          (scrape_pages_internal 3 "d"
            ["https://d/1", "https://d/2", "https://d/3", "https://d/4", "https://d/5"]
            [GatherResult.exc "boom",
             GatherResult.page (blockedPage "https://d/2"),
             GatherResult.page ⟨"https://d/3", "t", "m", "body", [], 200, none⟩]).failed_pages.length =
        min 5 3 :=
  ⟨rfl, c6_crawl_partition_count 3 "d" _ _ rfl⟩

/-- Claim C7, counterexample: the cache key `get_domain_keywords` computes is
`generate_cache_key("domain_keywords", domain)` — two discover requests that
agree on the domain but disagree on country (and language and location)
still agree on the key, so "agree on the key exactly when they agree on all
four parameters" is false. -/
theorem c7_key_ignores_other_params_counterexample :
    spec_discover_cache_key "example.com" "US" "en" "NYC" =
        spec_discover_cache_key "example.com" "DE" "fr" "Berlin" ∧
      ¬ ("US" = "DE") :=
  ⟨rfl, by decide⟩

/-- Claim C7, amended: the cache key is a deterministic function of the domain
alone — `get_domain_keywords` accepts no country, language or location, and
in the spec's four-parameter signature any two calls with the same domain
agree on the key regardless of the other three parameters. -/
theorem c7_key_function_of_domain_only (d c1 l1 o1 c2 l2 o2 : String) :
    spec_discover_cache_key d c1 l1 o1 = spec_discover_cache_key d c2 l2 o2 :=
  rfl

/-- Claim C8, counterexample: with the chain `[google_cse (throws 403),
serpapi (succeeds)]`, the first `get_domain_keywords` call alone issues two
upstream provider calls while succeeding, so "at most one upstream provider
call across the two calls" is false even though the second call is served
from cache. -/
theorem c8_two_provider_calls_counterexample :
    (get_domain_keywords [] 0 24 "example.com"
          [("google_cse", ProviderOutcome.throws "HTTP 403"),
           ("serpapi", ProviderOutcome.returns ⟨["kw"], ["https://example.com/"], "serpapi"⟩)]).1 =
        Except.ok (⟨["kw"], ["https://example.com/"], "serpapi"⟩ : Payload) ∧
      (get_domain_keywords [] 0 24 "example.com"
          [("google_cse", ProviderOutcome.throws "HTTP 403"),
           ("serpapi", ProviderOutcome.returns ⟨["kw"], ["https://example.com/"], "serpapi"⟩)]).2.2 = 2 ∧
      1 < 2 := by
  refine ⟨rfl, rfl, by decide⟩

/-- Claim C8, amended: if a first `get_domain_keywords` call succeeds from an
empty cache, a second call with the same domain before the written entry's
expiry returns the cached payload verbatim and issues zero provider calls
(the provider chain is not consulted at all). -/
theorem c8_second_call_served_from_cache (now1 now2 ttl : Nat) (domain : String)
    (providers : List (String × ProviderOutcome)) (p : Payload)
    (c' : List APICacheEntry) (n : Nat)
    (h1 : get_domain_keywords [] now1 ttl domain providers = (Except.ok p, c', n))
    (h2 : now2 < now1 + ttl) :
    get_domain_keywords c' now2 ttl domain [] = (Except.ok p, c', 0) := by
  have hmiss : get_cached_response [] (domain_keywords_cache_key domain) now1 = none := rfl
  simp only [get_domain_keywords, hmiss] at h1
  have hok : (run_providers [] (domain_keywords_cache_key domain) now1 ttl providers).1 =
      Except.ok p := by rw [h1]
  obtain ⟨nm, hc⟩ := run_providers_ok_cache _ now1 ttl providers p hok
  have hc' : c' = [⟨domain_keywords_cache_key domain, nm, p, now1, now1 + ttl⟩] := by
    rw [← hc, h1]
  subst hc'
  simp only [get_domain_keywords]
  rw [get_cached_response_hit _ _ _ _ _ _ h2]

/-- Witness for `c8_second_call_served_from_cache` at a one-provider chain. -/
theorem c8_second_call_served_from_cache_witness :
    get_domain_keywords [] 0 24 "example.com"
        [("serpapi", ProviderOutcome.returns ⟨["kw"], ["https://example.com/"], "serpapi"⟩)] =
      (Except.ok (⟨["kw"], ["https://example.com/"], "serpapi"⟩ : Payload),
        [⟨domain_keywords_cache_key "example.com", "serpapi",
          ⟨["kw"], ["https://example.com/"], "serpapi"⟩, 0, 24⟩], 1) ∧
      1 < 0 + 24 ∧
      get_domain_keywords
          [⟨domain_keywords_cache_key "example.com", "serpapi",
            ⟨["kw"], ["https://example.com/"], "serpapi"⟩, 0, 24⟩] 1 24 "example.com" [] =
        (Except.ok (⟨["kw"], ["https://example.com/"], "serpapi"⟩ : Payload),
          [⟨domain_keywords_cache_key "example.com", "serpapi",
            ⟨["kw"], ["https://example.com/"], "serpapi"⟩, 0, 24⟩], 0) :=
  ⟨rfl, by omega,
    c8_second_call_served_from_cache 0 1 24 "example.com"
      [("serpapi", ProviderOutcome.returns ⟨["kw"], ["https://example.com/"], "serpapi"⟩)]
      ⟨["kw"], ["https://example.com/"], "serpapi"⟩
      [⟨domain_keywords_cache_key "example.com", "serpapi",
        ⟨["kw"], ["https://example.com/"], "serpapi"⟩, 0, 24⟩]
      1 rfl (by omega)⟩

/-- Claim C9, counterexample: with crawl-delay 10, a task granted at time 0
and two callers arriving at times 1 and 2 both read the stale recorded time
0, both sleep until 10, and both start their fetches at time 10 — two page
fetches to the same domain 0 seconds apart, closer than the effective delay,
under concurrent callers. -/
theorem c9_concurrent_fetches_counterexample :
    fetchTimes (runLimiter 10 6
        { last := none,
          tasks := [TaskPhase.arrived 0, TaskPhase.arrived 1, TaskPhase.arrived 2] }) =
      [0, 10, 10] ∧ 10 - 10 < 10 := by
  refine ⟨rfl, by decide⟩

/-- Claim C9, amended: the spacing invariant holds for sequential callers —
if a fetch was granted (and recorded) at time `f1` and the next
`_respect_rate_limit` call for the domain enters at any time `t2 ≥ f1`,
its grant time is at least `f1 + delay`; concurrent callers that enter while
another is still sleeping can be granted closer together (see the
counterexample). -/
theorem c9_sequential_fetches_spaced (l0 : Option Nat) (t1 t2 delay : Nat)
    (h : respect_rate_limit l0 t1 delay ≤ t2) :
    respect_rate_limit l0 t1 delay + delay ≤
      respect_rate_limit (some (respect_rate_limit l0 t1 delay)) t2 delay := by
  generalize respect_rate_limit l0 t1 delay = f1 at h ⊢
  simp only [respect_rate_limit]
  split
  · omega
  · omega

/-- Witness for `c9_sequential_fetches_spaced` with crawl-delay 2. -/
theorem c9_sequential_fetches_spaced_witness :
    respect_rate_limit none 0 2 ≤ 1 ∧
      respect_rate_limit none 0 2 + 2 ≤
        respect_rate_limit (some (respect_rate_limit none 0 2)) 1 2 :=
  ⟨by decide, c9_sequential_fetches_spaced none 0 1 2 (by decide)⟩

/-- Claim C10 (confirmed): `_get_cached_response` on a key all of whose
entries have expired (`expires_at ≤ now`, so the `expires_at > now` filter
rejects them) returns the same absent result as on a cache holding no entry
for the key at all: both are `None`, lazily at read time. -/
theorem c10_expired_key_eq_missing_key (cache cache' : List APICacheEntry)
    (key : String) (now : Nat)
    (h : ∀ e ∈ cache, e.cache_key = key → e.expires_at ≤ now)
    (h' : ∀ e ∈ cache', e.cache_key ≠ key) :
    get_cached_response cache key now = get_cached_response cache' key now ∧
      get_cached_response cache key now = none := by
  have hn : cache.find?
      (fun e => decide (e.cache_key = key) && decide (now < e.expires_at)) = none := by
    rw [List.find?_eq_none]
    intro e he
    simp only [Bool.and_eq_true, decide_eq_true_eq, not_and]
    intro hk hlt
    exact absurd (h e he hk) (by omega)
  have hn' : cache'.find?
      (fun e => decide (e.cache_key = key) && decide (now < e.expires_at)) = none := by
    rw [List.find?_eq_none]
    intro e he
    simp only [Bool.and_eq_true, decide_eq_true_eq, not_and]
    intro hk hlt
    exact absurd hk (h' e he)
  constructor
  · simp [get_cached_response, hn, hn']
  · simp [get_cached_response, hn]

/-- Witness for `c10_expired_key_eq_missing_key`: one expired entry versus an
empty cache. -/
theorem c10_expired_key_eq_missing_key_witness :
    (∀ e ∈ [(⟨"k", "mock", ⟨["kw"], [], "mock"⟩, 0, 5⟩ : APICacheEntry)],
        e.cache_key = "k" → e.expires_at ≤ 5) ∧
      (∀ e ∈ ([] : List APICacheEntry), e.cache_key ≠ "k") ∧
      (get_cached_response [⟨"k", "mock", ⟨["kw"], [], "mock"⟩, 0, 5⟩] "k" 5 =
          get_cached_response [] "k" 5 ∧
        get_cached_response [⟨"k", "mock", ⟨["kw"], [], "mock"⟩, 0, 5⟩] "k" 5 = none) :=
  ⟨by decide, by decide,
    c10_expired_key_eq_missing_key [⟨"k", "mock", ⟨["kw"], [], "mock"⟩, 0, 5⟩] []
      "k" 5 (by decide) (by decide)⟩

end GHL
